import Mathlib

/-!
Verification of the BEHOVACAR car-search backend (src/car-search-backend.py)
against its natural-language specification.

Shallow embedding conventions:
* Python `float` prices are modelled as rationals (`ℚ`); `int` fields as `ℤ`.
* `Optional[T]` fields of the pydantic models are `Option T`.
* Python truthiness matters in `matches_criteria` (lines 94-114): `None`, `0`,
  `0.0` and the empty string are all falsy, so a filter set to such a value is
  skipped exactly like an absent one.  The guards of the `if` chain are
  translated one-for-one into the `check*` booleans below.
* Code that can raise a Python exception is modelled in `Except String`; the
  string carries the Python exception text.
* The HTTP fetch performed by `scrape_site` (lines 66-88) is external input;
  it is modelled by a `FetchResult` value: either the request raised
  (network failure / timeout), or it returned a status code together with the
  list of listing elements selected from the page.  Each element is modelled
  by its parse outcome, since the body of `parse_listing` (site-specific DOM
  extraction) is explicitly out of scope in the specification.
* The MongoDB collection `db.listings` is modelled as a list of stored
  `CarListing` documents; `find_one` on a url is a linear membership test and
  `insert_one` / `insert_many` append (the code declares no unique index, so
  inserting a duplicate url simply creates another document).
-/

/-- Canonical record of one vehicle advertisement (class `CarListing`,
lines 11-25 of the source).  Note that the model has *no* `body_type`,
`transmission` or `color` field. -/
structure CarListing where
  site_source : String
  title : String
  make : String
  model : String
  year : Int
  price : ℚ
  mileage : Int
  fuel_type : String
  location : String
  url : String
  description : String
  posting_date : Int
  seller_type : String
  images : List String
deriving DecidableEq, Repr

/-- Optional filter set (class `SearchParams`, lines 27-39 of the source).
Every field defaults to `none`, matching the pydantic `= None` defaults. -/
structure SearchParams where
  make : Option String := none
  model : Option String := none
  min_price : Option ℚ := none
  max_price : Option ℚ := none
  min_year : Option Int := none
  max_year : Option Int := none
  max_mileage : Option Int := none
  fuel_type : Option String := none
  location : Option String := none
  body_type : Option String := none
  transmission : Option String := none
  color : Option String := none
deriving DecidableEq, Repr

/-- A subscription: search parameters plus a notification target
(class `NotificationParams`, lines 41-43 of the source). -/
structure NotificationParams where
  search_params : SearchParams
  email : String
deriving DecidableEq, Repr

/-- Python truthiness of an `Optional[str]`: `None` and `""` are falsy. -/
def truthyStr (o : Option String) : Bool :=
  match o with
  | none => false
  | some s => decide (s ≠ "")

/-- Guard of line 96: `params.min_price and listing.price < params.min_price`.
`None` and `0.0` are falsy, so the filter only fires for a non-zero value. -/
def checkMinPrice (params : SearchParams) (listing : CarListing) : Bool :=
  match params.min_price with
  | none => false
  | some v => if v = 0 then false else decide (listing.price < v)

/-- Guard of line 98: `params.max_price and listing.price > params.max_price`. -/
def checkMaxPrice (params : SearchParams) (listing : CarListing) : Bool :=
  match params.max_price with
  | none => false
  | some v => if v = 0 then false else decide (listing.price > v)

/-- Guard of line 100: `params.min_year and listing.year < params.min_year`. -/
def checkMinYear (params : SearchParams) (listing : CarListing) : Bool :=
  match params.min_year with
  | none => false
  | some v => if v = 0 then false else decide (listing.year < v)

/-- Guard of line 102: `params.max_year and listing.year > params.max_year`. -/
def checkMaxYear (params : SearchParams) (listing : CarListing) : Bool :=
  match params.max_year with
  | none => false
  | some v => if v = 0 then false else decide (listing.year > v)

/-- Guard of line 104: `params.max_mileage and listing.mileage > params.max_mileage`. -/
def checkMaxMileage (params : SearchParams) (listing : CarListing) : Bool :=
  match params.max_mileage with
  | none => false
  | some v => if v = 0 then false else decide (listing.mileage > v)

/-- Guard of line 106:
`params.fuel_type and listing.fuel_type.lower() != params.fuel_type.lower()`. -/
def checkFuelType (params : SearchParams) (listing : CarListing) : Bool :=
  match params.fuel_type with
  | none => false
  | some s => if s = "" then false else decide (listing.fuel_type.toLower ≠ s.toLower)

/-- Translation of `matches_criteria` (lines 94-114).  The first six guards
read only fields that `CarListing` actually has.  The guards of lines
108-112 first test the truthiness of `params.body_type` / `transmission` /
`color`; when such a parameter is truthy, Python evaluates
`listing.body_type` (resp. `transmission`, `color`), an attribute the
`CarListing` model does not define, and raises `AttributeError` - modelled
by `Except.error`. -/
def matches_criteria (listing : CarListing) (params : SearchParams) : Except String Bool :=
  if checkMinPrice params listing then .ok false
  else if checkMaxPrice params listing then .ok false
  else if checkMinYear params listing then .ok false
  else if checkMaxYear params listing then .ok false
  else if checkMaxMileage params listing then .ok false
  else if checkFuelType params listing then .ok false
  else if truthyStr params.body_type then
    .error "AttributeError: CarListing object has no attribute body_type"
  else if truthyStr params.transmission then
    .error "AttributeError: CarListing object has no attribute transmission"
  else if truthyStr params.color then
    .error "AttributeError: CarListing object has no attribute color"
  else .ok true

/-- One HTML listing element of a result page, modelled by the outcome of
`parse_listing` on it: the body of `parse_listing` (line 90) is site-specific
extraction that the specification keeps out of scope, so an element is either
a parsed `CarListing` or a per-element parse exception. -/
def ListingElem : Type := Except String CarListing

/-- Result of `session.get` inside `scrape_site`: either the request raised
(network failure, timeout), or it produced a status code and the elements
selected by the listing selector. -/
inductive FetchResult where
  | failure
  | response (status : Nat) (elems : List ListingElem)

/-- Loop of lines 77-83: each element is parsed and kept when
`matches_criteria` returns `True`; a parse error or an exception raised by
`matches_criteria` is caught by the inner `try` and only skips that element. -/
def processElems (elems : List ListingElem) (params : SearchParams) : List CarListing :=
  elems.filterMap fun e =>
    match e with
    | .error _ => none
    | .ok l =>
      match matches_criteria l params with
      | .ok true => some l
      | .ok false => none
      | .error _ => none

/-- Translation of `scrape_site` (lines 66-88).  On an exception the
`except` clause returns `[]` (line 88).  On a 200 response the parsed and
filtered listings are returned (line 85).  On any other status the function
falls off the end of the `if` without a `return`, so Python returns `None` -
modelled by `Option.none`. -/
def scrape_site (params : SearchParams) (fetch : FetchResult) : Option (List CarListing) :=
  match fetch with
  | .failure => some []
  | .response status elems =>
    if status = 200 then some (processElems elems params) else none

/-- Merge loop of lines 128-130: `all_listings.extend(site_results)` for each
site result in order.  Extending with `None` (a non-200 scrape) raises
`TypeError`. -/
def gatherResults (opts : List (Option (List CarListing))) : Except String (List CarListing) :=
  match opts with
  | [] => .ok []
  | none :: _ => .error "TypeError: NoneType object is not iterable"
  | some xs :: rest =>
    match gatherResults rest with
    | .error e => .error e
    | .ok ys => .ok (xs ++ ys)

/-- Translation of `search_cars` (lines 117-136).  `fetches` holds one
`FetchResult` per configured site, in the order of `SITES.keys()`; `store`
is the MongoDB `listings` collection before the call.  Returns the response
listings together with the collection afterwards, or the uncaught Python
exception.  `insert_many` (line 134) appends every listing dict - the code
neither deduplicates nor declares a unique index on `url`. -/
def search_cars (params : SearchParams) (fetches : List FetchResult)
    (store : List CarListing) : Except String (List CarListing × List CarListing) :=
  match gatherResults (fetches.map (fun f => scrape_site params f)) with
  | .error e => .error e
  | .ok all_listings =>
    .ok (all_listings, if all_listings.isEmpty then store else store ++ all_listings)

/-- Result of `hash(params)` on a `NotificationParams` value.  The class is a
default pydantic `BaseModel` (no frozen config), which defines structural
`__eq__` and sets `__hash__ = None`, so the object is unhashable and every
attempt to hash it raises `TypeError`. -/
def pydanticHash (_ : NotificationParams) : Except String Nat :=
  .error "TypeError: unhashable type: NotificationParams"

/-- Python set insertion `active_subscriptions.add(params)` (line 140): the
set hashes the element first, so the unhashable pydantic model makes the call
raise; were the element hashable, insertion would be by structural
equality. -/
def setAdd (p : NotificationParams) (s : List NotificationParams) :
    Except String (List NotificationParams) :=
  match pydanticHash p with
  | .error e => .error e
  | .ok _ => .ok (if p ∈ s then s else p :: s)

/-- Python set membership `params in active_subscriptions` (line 145): the
`in` operator hashes the key before any lookup, even on an empty set, so it
raises for the unhashable pydantic model. -/
def setContains (p : NotificationParams) (s : List NotificationParams) :
    Except String Bool :=
  match pydanticHash p with
  | .error e => .error e
  | .ok _ => .ok (decide (p ∈ s))

/-- Translation of `subscribe_to_notifications` (lines 138-141): add to the
subscription set, then return the success message.  The add raises, so the
endpoint errors before reaching the return. -/
def subscribe_to_notifications (params : NotificationParams)
    (subs : List NotificationParams) :
    Except String (String × List NotificationParams) :=
  match setAdd params subs with
  | .error e => .error e
  | .ok subs2 => .ok ("Subscription created successfully", subs2)

/-- Outcome of the unsubscribe endpoint: either the JSON success message or
the raised `HTTPException(status_code, detail)`. -/
inductive UnsubscribeResponse where
  | success (message : String)
  | httpError (status : Nat) (detail : String)
deriving DecidableEq, Repr

/-- Translation of `unsubscribe_from_notifications` (lines 143-149): test
membership, then either remove and answer success or raise the 404
`HTTPException`.  The membership test hashes the unhashable pydantic model
and raises before either branch is reached. -/
def unsubscribe_from_notifications (params : NotificationParams)
    (subs : List NotificationParams) :
    Except String (UnsubscribeResponse × List NotificationParams) :=
  match setContains params subs with
  | .error e => .error e
  | .ok b =>
    if b then .ok (.success "Subscription deleted successfully", subs.erase params)
    else .ok (.httpError 404 "Subscription not found", subs)

/-- Line 167 of `check_for_new_listings`:
`listings = await search_cars(subscription.search_params)["listings"]`.
`search_cars` is an `async def`, so the un-awaited call evaluates to a
coroutine object and subscripting it with `["listings"]` raises `TypeError`
before any search is executed; the `await` applies to the subscript result
and is never reached. -/
def subscriptUnawaitedSearch (_ : SearchParams) : Except String (List CarListing) :=
  .error "TypeError: coroutine object is not subscriptable"

/-- Inner loop of lines 168-171: a listing whose url has no document in the
store is appended to `new_listings` and inserted; others are skipped. -/
def insertNewListings (listings new store : List CarListing) :
    List CarListing × List CarListing :=
  match listings with
  | [] => (new, store)
  | l :: rest =>
    if store.any (fun d => d.url = l.url) then insertNewListings rest new store
    else insertNewListings rest (new ++ [l]) (store ++ [l])

/-- Per-subscription loop of `check_for_new_listings` (lines 166-171),
accumulating the `new_listings` delta and the evolving store. -/
def checkLoop (subs : List NotificationParams) (new store : List CarListing) :
    Except String (List CarListing × List CarListing) :=
  match subs with
  | [] => .ok (new, store)
  | sub :: rest =>
    match subscriptUnawaitedSearch sub.search_params with
    | .error e => .error e
    | .ok listings =>
      match insertNewListings listings new store with
      | (new2, store2) => checkLoop rest new2 store2

/-- Translation of `check_for_new_listings` (lines 164-172): returns the
delta of newly seen listings together with the updated store, or the Python
exception that escaped the loop. -/
def check_for_new_listings (subs : List NotificationParams)
    (store : List CarListing) : Except String (List CarListing × List CarListing) :=
  checkLoop subs [] store

/-- One tick of the `send_notifications` websocket loop (lines 154-162): run
`check_for_new_listings`; push a `new_listings` message only when the delta is
non-empty.  The `try` catches only `WebSocketDisconnect`, so any other
exception escapes the handler - modelled by propagating the `Except.error`. -/
def send_notifications_tick (subs : List NotificationParams)
    (store : List CarListing) :
    Except String (Option (List CarListing) × List CarListing) :=
  match check_for_new_listings subs store with
  | .error e => .error e
  | .ok (new, store2) =>
    .ok ((if new.isEmpty then none else some new), store2)

/-! ### Concrete values used by scenario theorems and witnesses -/

/-- A fully populated listing used as the base of concrete scenarios. -/
def baseListing : CarListing :=
  { site_source := "leboncoin", title := "Toyota Corolla", make := "Toyota",
    model := "Corolla", year := 2020, price := 7500, mileage := 42000,
    fuel_type := "petrol", location := "Paris", url := "u0",
    description := "good condition", posting_date := 0,
    seller_type := "private", images := [] }

/-- SearchParams with every field absent. -/
def emptySearch : SearchParams := {}

/-- The price-range scenario parameters of the specification. -/
def priceParams : SearchParams :=
  { emptySearch with min_price := some 5000, max_price := some 10000 }

def listing4999 : CarListing := { baseListing with price := 4999, url := "p1" }

def listing7500 : CarListing := { baseListing with price := 7500, url := "p2" }

def listing10001 : CarListing := { baseListing with price := 10001, url := "p3" }

def listingU1 : CarListing := { baseListing with url := "u1" }

def listingU2 : CarListing := { baseListing with url := "u2" }

def listingU3 : CarListing := { baseListing with url := "u3" }

def subExample : NotificationParams :=
  { search_params := { emptySearch with make := some "Toyota" }, email := "a@example.com" }

def subOther : NotificationParams :=
  { search_params := emptySearch, email := "b@example.com" }

example : matches_criteria baseListing emptySearch = .ok true := rfl

example : matches_criteria listing4999 priceParams = .ok false := rfl

example : matches_criteria listing7500 priceParams = .ok true := rfl

example : matches_criteria listing10001 priceParams = .ok false := rfl

example :
    search_cars priceParams
      [.response 200 [.ok listing4999, .ok listing10001, .ok listing7500]] [] =
      .ok ([listing7500], [listing7500]) := rfl

example : scrape_site emptySearch (.response 500 []) = none := rfl

example :
    search_cars emptySearch [.response 200 [.ok listingU1], .response 500 []] [] =
      .error "TypeError: NoneType object is not iterable" := rfl

example :
    check_for_new_listings [subExample] [] =
      .error "TypeError: coroutine object is not subscriptable" := rfl

/-! ### Helper lemmas -/

theorem matches_criteria_ok_true_iff (L : CarListing) (P : SearchParams) :
    matches_criteria L P = Except.ok true ↔
      checkMinPrice P L = false ∧ checkMaxPrice P L = false ∧
      checkMinYear P L = false ∧ checkMaxYear P L = false ∧
      checkMaxMileage P L = false ∧ checkFuelType P L = false ∧
      truthyStr P.body_type = false ∧ truthyStr P.transmission = false ∧
      truthyStr P.color = false := by
  unfold matches_criteria
  split_ifs with h1 h2 h3 h4 h5 h6 h7 h8 h9 <;> simp_all

theorem checkMinPrice_eq_false_iff (P : SearchParams) (L : CarListing) :
    checkMinPrice P L = false ↔ ∀ v, P.min_price = some v → v ≠ 0 → v ≤ L.price := by
  unfold checkMinPrice
  cases hp : P.min_price with
  | none => simp
  | some v =>
    by_cases hv : v = 0 <;>
      simp [hv, decide_eq_false_iff_not, not_lt]

theorem checkMaxPrice_eq_false_iff (P : SearchParams) (L : CarListing) :
    checkMaxPrice P L = false ↔ ∀ v, P.max_price = some v → v ≠ 0 → L.price ≤ v := by
  unfold checkMaxPrice
  cases hp : P.max_price with
  | none => simp
  | some v =>
    by_cases hv : v = 0 <;>
      simp [hv, decide_eq_false_iff_not, not_lt]

theorem checkMinYear_eq_false_iff (P : SearchParams) (L : CarListing) :
    checkMinYear P L = false ↔ ∀ v, P.min_year = some v → v ≠ 0 → v ≤ L.year := by
  unfold checkMinYear
  cases hp : P.min_year with
  | none => simp
  | some v =>
    by_cases hv : v = 0 <;>
      simp [hv, decide_eq_false_iff_not, not_lt]

theorem checkMaxYear_eq_false_iff (P : SearchParams) (L : CarListing) :
    checkMaxYear P L = false ↔ ∀ v, P.max_year = some v → v ≠ 0 → L.year ≤ v := by
  unfold checkMaxYear
  cases hp : P.max_year with
  | none => simp
  | some v =>
    by_cases hv : v = 0 <;>
      simp [hv, decide_eq_false_iff_not, not_lt]

theorem checkMaxMileage_eq_false_iff (P : SearchParams) (L : CarListing) :
    checkMaxMileage P L = false ↔ ∀ v, P.max_mileage = some v → v ≠ 0 → L.mileage ≤ v := by
  unfold checkMaxMileage
  cases hp : P.max_mileage with
  | none => simp
  | some v =>
    by_cases hv : v = 0 <;>
      simp [hv, decide_eq_false_iff_not, not_lt]

theorem checkFuelType_eq_false_iff (P : SearchParams) (L : CarListing) :
    checkFuelType P L = false ↔
      ∀ s, P.fuel_type = some s → s ≠ "" → L.fuel_type.toLower = s.toLower := by
  unfold checkFuelType
  cases hp : P.fuel_type with
  | none => simp
  | some s =>
    by_cases hs : s = "" <;>
      simp [hs, decide_eq_false_iff_not]

theorem truthyStr_eq_false_iff (o : Option String) :
    truthyStr o = false ↔ ∀ s, o = some s → s = "" := by
  unfold truthyStr
  cases o <;> simp

theorem mem_processElems {L : CarListing} {elems : List ListingElem}
    {params : SearchParams} (h : L ∈ processElems elems params) :
    matches_criteria L params = Except.ok true := by
  unfold processElems at h
  rw [List.mem_filterMap] at h
  obtain ⟨e, _, hmap⟩ := h
  cases e with
  | error s => simp at hmap
  | ok l =>
    dsimp only at hmap
    cases hm : matches_criteria l params with
    | error s => rw [hm] at hmap; simp at hmap
    | ok b =>
      cases b with
      | false => rw [hm] at hmap; simp at hmap
      | true =>
        rw [hm] at hmap
        simp only [Option.some.injEq] at hmap
        exact hmap ▸ hm

theorem mem_scrape_site {L : CarListing} {ls : List CarListing}
    {params : SearchParams} {f : FetchResult}
    (h : scrape_site params f = some ls) (hL : L ∈ ls) :
    matches_criteria L params = Except.ok true := by
  cases f with
  | failure =>
    simp [scrape_site] at h
    subst h; simp at hL
  | response status elems =>
    by_cases hs : status = 200
    · simp [scrape_site, hs] at h
      exact mem_processElems (h ▸ hL)
    · simp [scrape_site, hs] at h

theorem mem_gatherResults {opts : List (Option (List CarListing))}
    {all : List CarListing} (h : gatherResults opts = Except.ok all)
    {L : CarListing} (hL : L ∈ all) :
    ∃ ls, some ls ∈ opts ∧ L ∈ ls := by
  induction opts generalizing all with
  | nil =>
    simp only [gatherResults, Except.ok.injEq] at h
    subst h; simp at hL
  | cons o rest ih =>
    cases o with
    | none => simp [gatherResults] at h
    | some xs =>
      simp only [gatherResults] at h
      cases hr : gatherResults rest with
      | error e => rw [hr] at h; simp at h
      | ok ys =>
        rw [hr] at h
        simp only [Except.ok.injEq] at h
        subst h
        rcases List.mem_append.mp hL with hx | hy
        · exact ⟨xs, by simp, hx⟩
        · obtain ⟨ls, hmem, hin⟩ := ih hr hy
          exact ⟨ls, by simp [hmem], hin⟩

theorem search_cars_mem_matches {params : SearchParams}
    {fetches : List FetchResult} {store listings store2 : List CarListing}
    (h : search_cars params fetches store = Except.ok (listings, store2))
    {L : CarListing} (hL : L ∈ listings) :
    matches_criteria L params = Except.ok true := by
  unfold search_cars at h
  cases hg : gatherResults (fetches.map (fun f => scrape_site params f)) with
  | error e => rw [hg] at h; simp at h
  | ok all_listings =>
    rw [hg] at h
    simp only [Except.ok.injEq, Prod.mk.injEq] at h
    obtain ⟨hlist, _⟩ := h
    subst hlist
    obtain ⟨ls, hmem, hin⟩ := mem_gatherResults hg hL
    rw [List.mem_map] at hmem
    obtain ⟨f, _, hf⟩ := hmem
    exact mem_scrape_site hf hin

/-! ### Claim theorems -/

/-- C1: for every SearchParams P and every listing L in the listings sequence
returned by Search(P), CriteriaMatcher.matches(L, P) returns true. -/
theorem c1_search_results_match (params : SearchParams) (fetches : List FetchResult)
    (store listings store2 : List CarListing)
    (h : search_cars params fetches store = Except.ok (listings, store2))
    (L : CarListing) (hL : L ∈ listings) :
    matches_criteria L params = Except.ok true :=
  search_cars_mem_matches h hL

/-- Witness for C1: a concrete search whose one returned listing satisfies the
matcher. -/
theorem c1_search_results_match_witness :
    matches_criteria listing7500 priceParams = Except.ok true :=
  c1_search_results_match priceParams
    [.response 200 [.ok listing4999, .ok listing10001, .ok listing7500]]
    [] [listing7500] [listing7500] rfl listing7500 (by simp)

/-- C2 counterexample: the make field is set to Honda and differs from the
listing make Toyota, yet matches returns true - `matches_criteria` never
consults make (nor model, nor location), refuting the claim that every
present field must match. -/
theorem c2_counterexample :
    ({ emptySearch with make := some "Honda" } : SearchParams).make = some "Honda" ∧
    baseListing.make = "Toyota" ∧
    "Toyota" ≠ "Honda" ∧
    matches_criteria baseListing { emptySearch with make := some "Honda" } =
      Except.ok true :=
  ⟨rfl, rfl, by decide, rfl⟩

/-- C2 amended: matches returns true iff every truthy filter among the checked
fields holds - inclusive price, year and mileage bounds, case-insensitive
fuel-type equality - and none of body_type, transmission, color is truthy
(a truthy one raises instead of returning a boolean); fields set to zero or
the empty string impose no constraint, and make, model and location are never
consulted. -/
theorem c2_amended_matches_iff (L : CarListing) (P : SearchParams) :
    (matches_criteria L P = Except.ok true ↔
      ((∀ v, P.min_price = some v → v ≠ 0 → v ≤ L.price) ∧
       (∀ v, P.max_price = some v → v ≠ 0 → L.price ≤ v) ∧
       (∀ v, P.min_year = some v → v ≠ 0 → v ≤ L.year) ∧
       (∀ v, P.max_year = some v → v ≠ 0 → L.year ≤ v) ∧
       (∀ v, P.max_mileage = some v → v ≠ 0 → L.mileage ≤ v) ∧
       (∀ s, P.fuel_type = some s → s ≠ "" → L.fuel_type.toLower = s.toLower) ∧
       (∀ s, P.body_type = some s → s = "") ∧
       (∀ s, P.transmission = some s → s = "") ∧
       (∀ s, P.color = some s → s = ""))) ∧
    (∀ m mo loc,
      matches_criteria L { P with make := m, model := mo, location := loc } =
        matches_criteria L P) := by
  constructor
  · rw [matches_criteria_ok_true_iff]
    exact and_congr (checkMinPrice_eq_false_iff P L)
      (and_congr (checkMaxPrice_eq_false_iff P L)
      (and_congr (checkMinYear_eq_false_iff P L)
      (and_congr (checkMaxYear_eq_false_iff P L)
      (and_congr (checkMaxMileage_eq_false_iff P L)
      (and_congr (checkFuelType_eq_false_iff P L)
      (and_congr (truthyStr_eq_false_iff P.body_type)
      (and_congr (truthyStr_eq_false_iff P.transmission)
      (truthyStr_eq_false_iff P.color))))))))
  · intro m mo loc
    rfl

/-- Witness for C2 amended: make, model and location have no influence on a
concrete evaluation. -/
theorem c2_amended_matches_iff_witness :
    matches_criteria baseListing
      { emptySearch with make := some "Honda", model := some "Civic", location := some "Lyon" } =
      matches_criteria baseListing emptySearch :=
  (c2_amended_matches_iff baseListing emptySearch).2
    (some "Honda") (some "Civic") (some "Lyon")

/-- C3 counterexample: with adapter A returning urls u1,u2 and adapter B
returning u2,u3, Search with empty params returns four listings - u2 twice,
once per source - and the store afterwards holds four documents, not three:
`search_cars` never deduplicates and `insert_many` stores every listing. -/
theorem c3_counterexample :
    search_cars emptySearch
      [.response 200 [.ok listingU1, .ok listingU2],
       .response 200 [.ok listingU2, .ok listingU3]] [] =
      Except.ok ([listingU1, listingU2, listingU2, listingU3],
        [listingU1, listingU2, listingU2, listingU3]) ∧
    [listingU1, listingU2, listingU2, listingU3].length ≠ 3 ∧
    [listingU1, listingU2, listingU2, listingU3].count listingU2 = 2 :=
  ⟨rfl, by decide, by decide⟩

/-- C3 amended: Search performs no deduplication - it returns the
concatenation of the adapters results in adapter order and `insert_many`
persists every returned listing, so the scenario yields four response
listings (u2 appearing twice) and a store of exactly four documents. -/
theorem c3_amended_no_dedup :
    search_cars emptySearch
      [.response 200 [.ok listingU1, .ok listingU2],
       .response 200 [.ok listingU2, .ok listingU3]] [] =
      Except.ok ([listingU1, listingU2, listingU2, listingU3],
        [listingU1, listingU2, listingU2, listingU3]) ∧
    [listingU1, listingU2, listingU2, listingU3].length = 4 ∧
    ([listingU1, listingU2, listingU2, listingU3].map (fun l => l.url)) =
      ["u1", "u2", "u2", "u3"] :=
  ⟨rfl, rfl, rfl⟩

/-- C4: under a raised exception (network failure, timeout) `scrape_site`
does return an empty list, but under a non-200 response it falls off the
`if` and returns None, not an empty sequence; the aggregation in
`search_cars` then raises TypeError, so a search with one healthy source and
one source answering 500 fails entirely instead of returning the healthy
results. -/
theorem c4_non200_returns_none :
    scrape_site emptySearch (.response 500 []) = none ∧
    scrape_site emptySearch .failure = some ([] : List CarListing) ∧
    search_cars emptySearch [.response 200 [.ok listingU1], .response 500 []] [] =
      Except.error "TypeError: NoneType object is not iterable" :=
  ⟨rfl, rfl, rfl⟩

/-- C5: with any subscription registered, `check_for_new_listings` raises
TypeError on line 167 - it subscripts the coroutine returned by the
un-awaited `search_cars` call - so no tick ever computes a delta, filters by
persisted urls, or pushes; the exception is not a WebSocketDisconnect and
escapes the `send_notifications` loop.  With no subscriptions the tick
pushes nothing. -/
theorem c5_tick_raises_typeerror :
    check_for_new_listings [subExample] [] =
      Except.error "TypeError: coroutine object is not subscriptable" ∧
    send_notifications_tick [subExample] [listingU1] =
      Except.error "TypeError: coroutine object is not subscriptable" ∧
    send_notifications_tick [] [listingU1] = Except.ok (none, [listingU1]) :=
  ⟨rfl, rfl, rfl⟩

/-- C6: every Subscribe call - the first on an unregistered pair as much as a
repeated one - raises TypeError: `active_subscriptions.add(params)` hashes
the default pydantic model, whose `__hash__` is None, so the endpoint errors
and never returns a created or a duplicate outcome, and the registry never
gains an entry. -/
theorem c6_subscribe_raises_typeerror :
    subscribe_to_notifications subExample [] =
      Except.error "TypeError: unhashable type: NotificationParams" ∧
    subscribe_to_notifications subExample [subExample] =
      Except.error "TypeError: unhashable type: NotificationParams" ∧
    ∀ (p : NotificationParams) (subs : List NotificationParams),
      subscribe_to_notifications p subs =
        Except.error "TypeError: unhashable type: NotificationParams" :=
  ⟨rfl, rfl, fun _ _ => rfl⟩

/-- C7: the claim that matches never raises fails - `CarListing` defines no
body_type, transmission or color attribute, so a truthy value for any of
those filters makes `matches_criteria` raise AttributeError instead of
returning false. -/
theorem c7_missing_fields_raise :
    matches_criteria baseListing { emptySearch with body_type := some "SUV" } =
      Except.error "AttributeError: CarListing object has no attribute body_type" ∧
    matches_criteria baseListing { emptySearch with transmission := some "manual" } =
      Except.error "AttributeError: CarListing object has no attribute transmission" ∧
    matches_criteria baseListing { emptySearch with color := some "red" } =
      Except.error "AttributeError: CarListing object has no attribute color" :=
  ⟨rfl, rfl, rfl⟩

/-- C8: every Unsubscribe call raises TypeError: the membership test
`params in active_subscriptions` (line 145) hashes the default pydantic
model, whose `__hash__` is None, before any lookup - even against the empty
registry - so the NotFound outcome and the removal branch are both
unreachable. -/
theorem c8_unsubscribe_raises_typeerror :
    unsubscribe_from_notifications subOther [] =
      Except.error "TypeError: unhashable type: NotificationParams" ∧
    unsubscribe_from_notifications subExample [subExample] =
      Except.error "TypeError: unhashable type: NotificationParams" ∧
    ∀ (p : NotificationParams) (subs : List NotificationParams),
      unsubscribe_from_notifications p subs =
        Except.error "TypeError: unhashable type: NotificationParams" :=
  ⟨rfl, rfl, fun _ _ => rfl⟩

/-- C9: the price, year and mileage range filters are inclusive: the
5000-10000 scenario excludes listings priced 4999 and 10001 and includes the
one priced 7500, and in general a listing whose price (year, mileage) equals
the corresponding bound passes that filter. -/
theorem c9_inclusive_bounds :
    search_cars priceParams
      [.response 200 [.ok listing4999, .ok listing10001, .ok listing7500]] [] =
      Except.ok ([listing7500], [listing7500]) ∧
    matches_criteria listing4999 priceParams = Except.ok false ∧
    matches_criteria listing10001 priceParams = Except.ok false ∧
    matches_criteria listing7500 priceParams = Except.ok true ∧
    (∀ (P : SearchParams) (L : CarListing),
      (P.min_price = some L.price → checkMinPrice P L = false) ∧
      (P.max_price = some L.price → checkMaxPrice P L = false) ∧
      (P.min_year = some L.year → checkMinYear P L = false) ∧
      (P.max_year = some L.year → checkMaxYear P L = false) ∧
      (P.max_mileage = some L.mileage → checkMaxMileage P L = false)) := by
  refine ⟨rfl, rfl, rfl, rfl, ?_⟩
  intro P L
  refine ⟨?_, ?_, ?_, ?_, ?_⟩ <;> intro h <;>
    simp [checkMinPrice, checkMaxPrice, checkMinYear, checkMaxYear,
      checkMaxMileage, h]

/-- Witness for C9: listings priced exactly at the minimum and at the
maximum bound pass the corresponding price filter. -/
theorem c9_inclusive_bounds_witness :
    checkMinPrice priceParams { baseListing with price := 5000 } = false ∧
    checkMaxPrice priceParams { baseListing with price := 10000 } = false :=
  ⟨(c9_inclusive_bounds.2.2.2.2 priceParams { baseListing with price := 5000 }).1 rfl,
   (c9_inclusive_bounds.2.2.2.2 priceParams { baseListing with price := 10000 }).2.1 rfl⟩

/-- C10: a numeric filter set to zero is falsy in Python, so
`matches_criteria` treats it exactly like an absent filter - the result
equals the one with the field unset, and the corresponding check never
rejects any listing. -/
theorem c10_zero_filters_absent (P : SearchParams) (L : CarListing) :
    matches_criteria L { P with min_price := some 0 } =
      matches_criteria L { P with min_price := none } ∧
    matches_criteria L { P with max_price := some 0 } =
      matches_criteria L { P with max_price := none } ∧
    matches_criteria L { P with min_year := some 0 } =
      matches_criteria L { P with min_year := none } ∧
    matches_criteria L { P with max_year := some 0 } =
      matches_criteria L { P with max_year := none } ∧
    matches_criteria L { P with max_mileage := some 0 } =
      matches_criteria L { P with max_mileage := none } ∧
    checkMinPrice { P with min_price := some 0 } L = false ∧
    checkMaxPrice { P with max_price := some 0 } L = false ∧
    checkMinYear { P with min_year := some 0 } L = false ∧
    checkMaxYear { P with max_year := some 0 } L = false ∧
    checkMaxMileage { P with max_mileage := some 0 } L = false := by
  refine ⟨?_, ?_, ?_, ?_, ?_, ?_, ?_, ?_, ?_, ?_⟩ <;> rfl
